import Mathlib

/-!
# Verification of the ChatBot variant/CRUD handlers

Shallow embedding of the API route handlers and the client-side variant
navigation of the ChatBot repository, together with proofs of the spec
claims about them.  Database tables are modelled as lists of rows, one
structure per Prisma entity; each handler becomes a pure function from a
request and a database state to a status code and a new database state.
-/

/-- Row of the `personas` table (fields used by the handlers under proof). -/
structure Persona where
  id : Nat
  name : String
  profileName : Option String
  profile : String
deriving Repr, DecidableEq

/-- Row of the `characters` table (fields used by the handlers under proof). -/
structure Character where
  id : Nat
  name : String
  profileName : Option String
  firstMessage : String
deriving Repr, DecidableEq

/-- Row of the `chat_sessions` table. -/
structure ChatSession where
  id : Nat
  personaId : Nat
  characterId : Nat
deriving Repr, DecidableEq

/-- Message role: the code stores the strings "user" / "assistant". -/
inductive Role where
  | user
  | assistant
deriving Repr, DecidableEq

/-- Row of the `chat_messages` table.  `createdAt` is an abstract timestamp
ordinal (larger = later). -/
structure ChatMessage where
  id : Nat
  sessionId : Nat
  role : Role
  content : String
  createdAt : Nat
deriving Repr, DecidableEq

/-- Row of the `message_versions` table (a variant of an assistant message). -/
structure MessageVersion where
  id : Nat
  messageId : Nat
  content : String
  version : Nat
  isActive : Bool
deriving Repr, DecidableEq

/-- The whole relational store, one list per table. -/
structure AppDB where
  personas : List Persona
  characters : List Character
  sessions : List ChatSession
  messages : List ChatMessage
  versions : List MessageVersion
deriving Repr, DecidableEq

/-- Direction argument of `navigateVariant` in `src/pages/chat/[id].tsx`. -/
inductive Direction where
  | prev
  | next
deriving Repr, DecidableEq

/-- `navigateVariant` from `src/pages/chat/[id].tsx` (lines 540-557), as a
function of the number of stored variants and the current pointer index.
`totalOptions = variants.length + 1` counts the original message at index 0;
an empty state (`totalOptions <= 1`) leaves the pointer unchanged, `prev`
from 0 wraps to `totalOptions - 1`, `next` from `totalOptions - 1` wraps to
0, and the result is clamped into `[0, totalOptions - 1]`. -/
def navigateVariant (numVariants : Nat) (currentIndex : Nat) (direction : Direction) : Nat :=
  let totalOptions := numVariants + 1
  if totalOptions ≤ 1 then
    currentIndex
  else
    let newIndex :=
      match direction with
      | Direction.prev => if currentIndex > 0 then currentIndex - 1 else totalOptions - 1
      | Direction.next => if currentIndex < totalOptions - 1 then currentIndex + 1 else 0
    max 0 (min newIndex (totalOptions - 1))

/-! ## Streaming variant generation (POST /api/messages/[id]/variants, stream=true)

`src/pages/api/messages/[id]/variants.ts`, lines 261-421.  The handler
relays the upstream SSE stream chunk by chunk, accumulating the delta
contents in `assistantText`.  A client disconnect sets `clientDisconnected`
(via the `close` / `aborted` events) and the relay loop breaks at its next
check; a `[DONE]` payload seen while the client is still connected sets
`streamCompletedNaturally`.  We model the interleaving of upstream payloads
and the disconnect signal as a single event list processed in order. -/

/-- One observable event during variant streaming: an upstream content
delta, the upstream `[DONE]` marker, or the client-disconnect signal. -/
inductive StreamEvent where
  | delta (s : String)
  | done
  | disconnect
deriving Repr, DecidableEq

/-- Mutable locals of the variant streaming loop. -/
structure VariantStreamState where
  assistantText : String
  clientDisconnected : Bool
  streamCompletedNaturally : Bool
deriving Repr, DecidableEq

/-- Initial state of the variant streaming loop: empty accumulator, both
flags false (lines 267-269). -/
def initVariantStream : VariantStreamState :=
  { assistantText := "", clientDisconnected := false, streamCompletedNaturally := false }

/-- The variant relay loop (lines 291-343).  Once `clientDisconnected` is
set the loop breaks and later events are not processed; a delta appends to
`assistantText`; `[DONE]` marks natural completion only while the client is
still connected (lines 308-317). -/
def runVariantStream : VariantStreamState → List StreamEvent → VariantStreamState
  | st, [] => st
  | st, e :: rest =>
    if st.clientDisconnected then
      st
    else
      match e with
      | StreamEvent.disconnect =>
          runVariantStream { st with clientDisconnected := true } rest
      | StreamEvent.delta s =>
          runVariantStream { st with assistantText := st.assistantText ++ s } rest
      | StreamEvent.done =>
          runVariantStream { st with streamCompletedNaturally := true } rest

/-- The save decision after the relay loop (lines 350-414): if the final
disconnect check fires, nothing is persisted; otherwise a naturally
completed stream with non-empty text creates the `MessageVersion` row
(id `newId`, version `nextVersion`, `isActive := false`); otherwise nothing
is persisted. -/
def variantSaveDecision (st : VariantStreamState) (db : List MessageVersion)
    (messageId nextVersion newId : Nat) : List MessageVersion :=
  if st.clientDisconnected then
    db
  else if st.streamCompletedNaturally ∧ st.assistantText.length > 0 then
    db ++ [{ id := newId, messageId := messageId, content := st.assistantText,
             version := nextVersion, isActive := false }]
  else
    db

/-! ## PUT / DELETE /api/messages/[id]/variants (commit, edit, cleanup) -/

/-- The PUT branch with no `content` field ("set active variant", lines
458-491): mark every `MessageVersion` of the message inactive, mark the row
with id `variantId` active, and copy that row's content into the canonical
`ChatMessage`.  `prisma.messageVersion.update` throws when no row has id
`variantId`, which the surrounding catch turns into a 500 with the database
unchanged by the remaining steps; we return `none` in that case. -/
def setActiveVariant (db : AppDB) (messageId variantId : Nat) : Option AppDB :=
  let deactivated := db.versions.map (fun v =>
    if v.messageId = messageId then { v with isActive := false } else v)
  match deactivated.find? (fun v => v.id = variantId) with
  | none => none
  | some active =>
    let activeRow := { active with isActive := true }
    some { db with
      versions := deactivated.map (fun v => if v.id = variantId then activeRow else v),
      messages := db.messages.map (fun m =>
        if m.id = messageId then { m with content := activeRow.content } else m) }

/-- The DELETE handler (lines 499-526): `deleteMany` of every
`MessageVersion` of the message, answering 200 with `{ deleted: count }`.
Returns (status, deleted count, new database). -/
def deleteVariants (db : AppDB) (messageId : Nat) : Nat × Nat × AppDB :=
  let toDelete := db.versions.filter (fun v => v.messageId = messageId)
  (200, toDelete.length,
    { db with versions := db.versions.filter (fun v => ¬ v.messageId = messageId) })

/-! ## Variant version allocation (POST /api/messages/[id]/variants, lines 97-137)

Each loop iteration performs two separate database reads: `findFirst`
(highest existing version) and then `findUnique` on the candidate
`max + 1`.  A concurrent writer can change the table between the two
reads, so we parametrise the loop by what each iteration observes. -/

/-- What iteration `i` of the allocation loop observes: the highest version
returned by `findFirst` (`none` when the message has no variants), and
whether `findUnique` then finds the candidate `max + 1` already taken. -/
structure AttemptObs where
  lastVersion : Option Nat
  versionTaken : Bool
deriving Repr, DecidableEq

/-- Outcome of the allocation loop: a version number, or exhaustion of the
three attempts (the handler then answers 500 and creates nothing). -/
inductive AllocResult where
  | allocated (version : Nat)
  | failed
deriving Repr, DecidableEq

/-- The allocation loop body, `fuel` iterations remaining, currently at
iteration `i`: compute `nextVersion = (lastVersion?.version || 0) + 1` and
keep it unless the existence check says it is taken, in which case retry. -/
def allocFrom (obs : Nat → AttemptObs) : Nat → Nat → AllocResult
  | 0, _ => AllocResult.failed
  | fuel + 1, i =>
    let o := obs i
    let nextVersion := (o.lastVersion.getD 0) + 1
    if o.versionTaken then allocFrom obs fuel (i + 1)
    else AllocResult.allocated nextVersion

/-- The allocation loop with `maxRetries = 3` (lines 97-137). -/
def allocateVersion (obs : Nat → AttemptObs) : AllocResult :=
  allocFrom obs 3 0

/-- HTTP status and created rows of the POST handler as determined by the
allocation outcome (line 136: exhaustion answers 500 before any variant
row is created). -/
def variantPostAfterAlloc (db : List MessageVersion) (r : AllocResult) :
    Option Nat × List MessageVersion :=
  match r with
  | AllocResult.failed => (some 500, db)
  | AllocResult.allocated _ => (none, db)

/-! ## POST /api/characters (src/pages/api/characters/index.ts, lines 15-45)

The body fields `profileName` and `bio` are spread into the `create` only
when truthy, so an absent or empty `profileName` is stored as NULL; we
model a truthy string as `some s` with `s ≠ ""`. -/

/-- Request body of POST /api/characters (fields relevant to creation;
`none` models an absent field and `""` a present-but-empty one, both falsy
in the handler). -/
structure CharacterCreateBody where
  name : Option String
  profileName : Option String
  firstMessage : Option String
deriving Repr, DecidableEq

/-- JavaScript truthiness of an optional string field. -/
def truthy : Option String → Bool
  | none => false
  | some s => s ≠ ""

/-- The `profileName` actually stored: the spread `...(profileName &&
\x7b profileName \x7d)` keeps the field only when truthy. -/
def storedProfileName (profileName : Option String) : Option String :=
  if truthy profileName then profileName else none

/-- Modelled from the spec: the Prisma schema is not part of the source
tree; per the spec invariant "(name, profileName) pairs are unique per
Character and Persona", `prisma.character.create` raises error P2002
exactly when the new row's (name, profileName) pair equals an existing
row's pair. -/
def characterCreateConflicts (db : List Character) (name : String)
    (profileName : Option String) : Bool :=
  db.any (fun c => c.name = name ∧ c.profileName = profileName)

/-- The POST branch of /api/characters: reject a falsy `name` with 400
(missing required field); otherwise attempt the create, translating a
P2002 conflict into a 400 with the table unchanged, and answering 201 with
the new row appended otherwise.  `newId` stands for the id the database
assigns.  Returns (status, new table). -/
def charactersPost (db : List Character) (body : CharacterCreateBody) (newId : Nat) :
    Nat × List Character :=
  match body.name with
  | none => (400, db)
  | some name =>
    if name = "" then (400, db)
    else
      let pn := storedProfileName body.profileName
      if characterCreateConflicts db name pn then (400, db)
      else
        let row : Character :=
          { id := newId, name := name, profileName := pn,
            firstMessage := (body.firstMessage.filter (fun s => s ≠ "")).getD
              "You didn't enter a first message for this character :(" }
        (201, db ++ [row])

/-! ## DELETE /api/personas/[id] (src/pages/api/personas/[id].ts, lines 35-43)

Three sequential deletes, no transaction: messages of the persona's
sessions, then the sessions, then the persona.  `prisma.persona.delete`
throws when the persona does not exist; the handler has no catch, so the
rejection surfaces as a 500 after the first two deletes already ran. -/

/-- The DELETE branch of /api/personas/[id].  Returns (status, new
database). -/
def personaDelete (db : AppDB) (personaId : Nat) : Nat × AppDB :=
  let remainingMessages := db.messages.filter (fun m =>
    ¬ db.sessions.any (fun s => s.id = m.sessionId ∧ s.personaId = personaId))
  let remainingSessions := db.sessions.filter (fun s => ¬ s.personaId = personaId)
  let db1 := { db with messages := remainingMessages, sessions := remainingSessions }
  if db.personas.any (fun p => p.id = personaId) then
    (204, { db1 with personas := db.personas.filter (fun p => ¬ p.id = personaId) })
  else
    (500, db1)

/-! ## POST /api/sessions (src/unnamed/part_001, lines 141-157) -/

/-- Left-to-right, non-overlapping global replacement of the literal
`pattern` by `repl` (the semantics of a JavaScript global regex replace on
a literal pattern): on a match, emit `repl`, skip the matched characters
and continue after them without rescanning `repl`; otherwise emit one
character and continue.  The fuel argument (instantiated with the string
length, an upper bound since every step consumes at least one character)
only makes the recursion structural. -/
def replaceAllAux (pattern repl : List Char) : Nat → List Char → List Char
  | _, [] => []
  | 0, s => s
  | fuel + 1, c :: rest =>
    if pattern ≠ [] ∧ pattern.isPrefixOf (c :: rest) then
      repl ++ replaceAllAux pattern repl fuel ((c :: rest).drop pattern.length)
    else
      c :: replaceAllAux pattern repl fuel rest

/-- Global replacement of a literal pattern in a string. -/
def replaceAll (s pattern repl : String) : String :=
  { data := replaceAllAux pattern.data repl.data s.data.length s.data }

/-- The seeded first-message content: the character's `firstMessage` with
every occurrence of the literal `\x7b\x7buser\x7d\x7d` replaced by the
persona's name, then every occurrence of `\x7b\x7bchar\x7d\x7d` replaced by
the character's name (two global regex replaces, applied in that order). -/
def seedFirstMessage (firstMessage personaName characterName : String) : String :=
  replaceAll (replaceAll firstMessage "\x7b\x7buser\x7d\x7d" personaName)
    "\x7b\x7bchar\x7d\x7d" characterName

/-- The POST branch of /api/sessions: reject a falsy `personaId` or
`characterId` (0 models a falsy numeric body field) with 400; otherwise
create the session (id `newSessionId`) and, when both the persona and the
character exist, create one assistant `ChatMessage` (id `newMessageId`,
timestamp `now`) carrying the substituted first message.  Returns
(status, new database). -/
def sessionsPost (db : AppDB) (personaId characterId : Nat)
    (newSessionId newMessageId now : Nat) : Nat × AppDB :=
  if personaId = 0 ∨ characterId = 0 then
    (400, db)
  else
    let sess : ChatSession :=
      { id := newSessionId, personaId := personaId, characterId := characterId }
    let db1 := { db with sessions := db.sessions ++ [sess] }
    match db.personas.find? (fun p => p.id = personaId),
          db.characters.find? (fun c => c.id = characterId) with
    | some persona, some character =>
      let msg : ChatMessage :=
        { id := newMessageId, sessionId := newSessionId, role := Role.assistant,
          content := seedFirstMessage character.firstMessage persona.name character.name,
          createdAt := now }
      (201, { db1 with messages := db1.messages ++ [msg] })
    | _, _ => (201, db1)

/-! ## Streaming chat send (src/unnamed/part_005)

Unlike variant generation, the chat-send handler saves partial content on
client disconnect: the `close` / `aborted` event handlers call
`savePartialMessage`, and a `messageSaved` flag makes the save happen at
most once.  We model the same event-list interleaving as for variants. -/

/-- JavaScript truthiness of `s.trim()` (a non-empty trimmed string):
`s` contains at least one non-whitespace character. -/
def trimNonempty (s : String) : Bool :=
  s.data.any (fun c => ¬ c.isWhitespace)

/-- `findFirst` by `createdAt` descending over one session's messages
(part_005, lines 139-143): the session message with the greatest
`createdAt` (ties resolved towards the later list entry). -/
def lastSessionMessage (messages : List ChatMessage) (sessionId : Nat) : Option ChatMessage :=
  (messages.filter (fun m => m.sessionId = sessionId)).foldl
    (fun acc m =>
      match acc with
      | none => some m
      | some b => if b.createdAt ≤ m.createdAt then some m else some b)
    none

/-- `saveAssistantMessage` (part_005, lines 137-168): when the last message
of the session is an assistant message, concatenate `"\n\n" ++ content`
onto it; otherwise create a new assistant row (id `newId`, timestamp
`now`). -/
def saveAssistantMessage (messages : List ChatMessage) (sessionId : Nat)
    (content : String) (newId now : Nat) : List ChatMessage :=
  match lastSessionMessage messages sessionId with
  | some last =>
    if last.role = Role.assistant then
      messages.map (fun m =>
        if m.id = last.id then { m with content := m.content ++ "\n\n" ++ content } else m)
    else
      messages ++ [{ id := newId, sessionId := sessionId, role := Role.assistant,
                     content := content, createdAt := now }]
  | none =>
    messages ++ [{ id := newId, sessionId := sessionId, role := Role.assistant,
                   content := content, createdAt := now }]

/-- Mutable locals of the chat-send streaming phase (part_005, lines
205-209), together with the `chat_messages` table they act on. -/
structure ChatSendState where
  messages : List ChatMessage
  assistantText : String
  streamCompleted : Bool
  messageSaved : Bool
  clientDisconnected : Bool
deriving Repr, DecidableEq

/-- `savePartialMessage` (part_005, lines 211-223): save the accumulated
text through `saveAssistantMessage` unless it was already saved or trims to
the empty string (JavaScript truthiness of `assistantText.trim()`). -/
def savePartialMessage (sessionId newId now : Nat) (st : ChatSendState) : ChatSendState :=
  if ¬ st.messageSaved ∧ trimNonempty st.assistantText then
    { st with
      messages := saveAssistantMessage st.messages sessionId st.assistantText newId now,
      messageSaved := true }
  else
    st

/-- The chat-send relay loop (part_005, lines 250-326) over the event
list: a delta appends to `assistantText`; the disconnect signal sets
`clientDisconnected` and runs `savePartialMessage` (the `close` /
`aborted` handlers, lines 226-240; `streamCompleted` is still false during
the loop), after which the loop breaks; the upstream `[DONE]` marker is
relayed without touching the locals. -/
def runChatSendStream (sessionId newId now : Nat) :
    ChatSendState → List StreamEvent → ChatSendState
  | st, [] => st
  | st, e :: rest =>
    if st.clientDisconnected then
      st
    else
      match e with
      | StreamEvent.disconnect =>
        let st1 := { st with clientDisconnected := true }
        let st2 := if ¬ st1.streamCompleted then savePartialMessage sessionId newId now st1
                   else st1
        runChatSendStream sessionId newId now st2 rest
      | StreamEvent.delta s =>
        runChatSendStream sessionId newId now
          { st with assistantText := st.assistantText ++ s } rest
      | StreamEvent.done =>
        runChatSendStream sessionId newId now st rest

/-- The post-loop logic of the chat-send handler (part_005, lines 311-326):
mark `streamCompleted` when no disconnect was seen; save the full message
when connected, unsaved and the text trims non-empty; otherwise fall back
to `savePartialMessage` when disconnected and unsaved. -/
def chatSendFinish (sessionId newId now : Nat) (st : ChatSendState) : ChatSendState :=
  let st1 := if ¬ st.clientDisconnected then { st with streamCompleted := true } else st
  if ¬ st1.messageSaved ∧ ¬ st1.clientDisconnected ∧ trimNonempty st1.assistantText then
    { st1 with
      messages := saveAssistantMessage st1.messages sessionId st1.assistantText newId now,
      messageSaved := true }
  else if st1.clientDisconnected ∧ ¬ st1.messageSaved then
    savePartialMessage sessionId newId now st1
  else
    st1

/-- Whole streaming phase of the chat-send handler: relay loop followed by
the post-loop save logic, starting from an empty accumulator. -/
def chatSendStream (messages : List ChatMessage) (sessionId newId now : Nat)
    (events : List StreamEvent) : ChatSendState :=
  chatSendFinish sessionId newId now
    (runChatSendStream sessionId newId now
      { messages := messages, assistantText := "", streamCompleted := false,
        messageSaved := false, clientDisconnected := false } events)

/-- Concatenation of the delta contents of an event list: the value of
`assistantText` after relaying exactly these events. -/
def deltaText : List StreamEvent → String
  | [] => ""
  | StreamEvent.delta s :: rest => s ++ deltaText rest
  | _ :: rest => deltaText rest

/-- Events that only carry content deltas (no disconnect, no `[DONE]`):
the shape of the relay before the upstream stream completes. -/
def allDeltas : List StreamEvent → Prop
  | [] => True
  | StreamEvent.delta _ :: rest => allDeltas rest
  | _ => False

instance : DecidablePred allDeltas := by
  intro l
  induction l with
  | nil => exact isTrue trivial
  | cons e rest ih =>
    cases e with
    | delta s => exact ih
    | done => exact isFalse (fun h => h)
    | disconnect => exact isFalse (fun h => h)

/-! ## P2002 (uniqueness violation) translation across the API handlers -/

/-- The create/update operations that catch the Prisma uniqueness-violation
error P2002 and answer with an HTTP status. -/
inductive CreateOrUpdateOp where
  /-- POST /api/characters, src/pages/api/characters/index.ts lines 37-42 -/
  | charactersPost
  /-- PUT /api/characters/[id], src/pages/api/characters/[id].ts lines 29-34 -/
  | charactersPut
  /-- POST /api/personas, src/pages/api/personas/index.ts lines 26-31 -/
  | personasPost
  /-- PUT /api/personas/[id], src/pages/api/personas/[id].ts lines 25-30 -/
  | personasPut
  /-- POST /api/character-groups, src/pages/api/character-groups/index.ts lines 48-55 -/
  | characterGroupsPost
  /-- PUT /api/character-groups/[id], src/pages/api/character-groups/[id].ts lines 52-61 -/
  | characterGroupsPut
  /-- non-streaming variant create, src/pages/api/messages/[id]/variants.ts lines 239-247 -/
  | variantCreate
deriving Repr, DecidableEq

/-- The HTTP status each handler answers when `prisma` raises P2002, read
off the `catch` branch of each operation. -/
def p2002Status : CreateOrUpdateOp → Nat
  | CreateOrUpdateOp.charactersPost => 400
  | CreateOrUpdateOp.charactersPut => 400
  | CreateOrUpdateOp.personasPost => 400
  | CreateOrUpdateOp.personasPut => 400
  | CreateOrUpdateOp.characterGroupsPost => 400
  | CreateOrUpdateOp.characterGroupsPut => 400
  | CreateOrUpdateOp.variantCreate => 409

/-! ## Theorems -/

/-- Once the disconnect flag is set, the variant relay loop processes no
further events. -/
theorem runVariantStream_of_disconnected (st : VariantStreamState)
    (events : List StreamEvent) (h : st.clientDisconnected = true) :
    runVariantStream st events = st := by
  cases events with
  | nil => rfl
  | cons e rest => simp [runVariantStream, h]

/-- If the event list contains the disconnect signal, the variant relay
loop ends with the disconnect flag set. -/
theorem runVariantStream_disconnect_mem (events : List StreamEvent)
    (st : VariantStreamState) (h : StreamEvent.disconnect ∈ events) :
    (runVariantStream st events).clientDisconnected = true := by
  induction events generalizing st with
  | nil => cases h
  | cons e rest ih =>
    by_cases hd : st.clientDisconnected = true
    · rw [runVariantStream_of_disconnected st (e :: rest) hd]
      exact hd
    · have hd2 : st.clientDisconnected = false := by
        cases hcd : st.clientDisconnected
        · rfl
        · exact absurd hcd hd
      cases e with
      | disconnect =>
        simp only [runVariantStream, hd2]
        rw [runVariantStream_of_disconnected _ rest rfl]
        simp
      | delta s =>
        simp only [runVariantStream, hd2]
        exact ih _ (by simpa using h)
      | done =>
        simp only [runVariantStream, hd2]
        exact ih _ (by simpa using h)

/-- C1: if a streamed variant generation is aborted by client disconnect
before the upstream stream completes (the disconnect signal arrives with no
`[DONE]` before it), then no new `MessageVersion` row is persisted: the
accumulated text is discarded and the table is unchanged. -/
theorem variant_stream_abort_not_persisted (db : List MessageVersion)
    (messageId nextVersion newId : Nat) (pre post : List StreamEvent)
    (hpre : StreamEvent.done ∉ pre) :
    variantSaveDecision
      (runVariantStream initVariantStream (pre ++ StreamEvent.disconnect :: post))
      db messageId nextVersion newId = db := by
  have hmem : StreamEvent.disconnect ∈ pre ++ StreamEvent.disconnect :: post := by
    simp
  have hcd := runVariantStream_disconnect_mem _ initVariantStream hmem
  simp [variantSaveDecision, hcd]

/-- Witness for C1: a concrete aborted stream ("Hel" relayed, then the
client disconnects, then "lo" and `[DONE]` arrive) persists nothing. -/
theorem variant_stream_abort_not_persisted_witness :
    variantSaveDecision
      (runVariantStream initVariantStream
        [StreamEvent.delta "Hel", StreamEvent.disconnect,
         StreamEvent.delta "lo", StreamEvent.done])
      [] 7 2 99 = [] :=
  variant_stream_abort_not_persisted [] 7 2 99 [StreamEvent.delta "Hel"]
    [StreamEvent.delta "lo", StreamEvent.done] (by decide)

/-- C3: variant navigation cycles the pointer with wraparound over
`[0, N]`: `next` from index `N` (the last variant) wraps to 0 (the
original), `prev` from 0 wraps to `N`, and otherwise the pointer moves by
one. -/
theorem navigateVariant_wraparound (N i : Nat) (hN : 1 ≤ N) (hi : i ≤ N) :
    navigateVariant N N Direction.next = 0 ∧
    navigateVariant N 0 Direction.prev = N ∧
    (i < N → navigateVariant N i Direction.next = i + 1) ∧
    (0 < i → navigateVariant N i Direction.prev = i - 1) := by
  refine ⟨?_, ?_, ?_, ?_⟩
  · simp only [navigateVariant]
    split_ifs <;> omega
  · simp only [navigateVariant]
    split_ifs <;> omega
  · intro h
    simp only [navigateVariant]
    split_ifs <;> omega
  · intro h
    simp only [navigateVariant]
    split_ifs <;> omega

/-- Witness for C3 at `N = 3`, `i = 2`: next from the last variant wraps
to the original, prev from the original wraps to the last variant, and
interior navigation moves by one. -/
theorem navigateVariant_wraparound_witness :
    navigateVariant 3 3 Direction.next = 0 ∧
    navigateVariant 3 0 Direction.prev = 3 ∧
    (2 < 3 → navigateVariant 3 2 Direction.next = 3) ∧
    (0 < 2 → navigateVariant 3 2 Direction.prev = 1) :=
  navigateVariant_wraparound 3 2 (by decide) (by decide)

/-- Closed form of the three-attempt allocation loop. -/
theorem allocateVersion_eq (obs : Nat → AttemptObs) :
    allocateVersion obs =
      if (obs 0).versionTaken then
        if (obs 1).versionTaken then
          if (obs 2).versionTaken then AllocResult.failed
          else AllocResult.allocated ((obs 2).lastVersion.getD 0 + 1)
        else AllocResult.allocated ((obs 1).lastVersion.getD 0 + 1)
      else AllocResult.allocated ((obs 0).lastVersion.getD 0 + 1) := rfl

/-- C4: version allocation is optimistic with bounded retry.  Whatever the
three attempts observe: if every attempt finds its candidate version
already taken, the loop fails and the handler answers 500 without creating
a variant; and the first attempt that finds its candidate free allocates
the observed current maximum plus one. -/
theorem variant_version_allocation (obs : Nat → AttemptObs) (db : List MessageVersion) :
    ((∀ i, i < 3 → (obs i).versionTaken = true) →
      allocateVersion obs = AllocResult.failed ∧
      variantPostAfterAlloc db (allocateVersion obs) = (some 500, db)) ∧
    (∀ i, i < 3 → (obs i).versionTaken = false →
      (∀ j, j < i → (obs j).versionTaken = true) →
      allocateVersion obs = AllocResult.allocated ((obs i).lastVersion.getD 0 + 1)) := by
  constructor
  · intro h
    have h0 := h 0 (by norm_num)
    have h1 := h 1 (by norm_num)
    have h2 := h 2 (by norm_num)
    rw [allocateVersion_eq, h0, h1, h2]
    simp [variantPostAfterAlloc, allocateVersion_eq, h0, h1, h2]
  · intro i hi hfree hprev
    interval_cases i
    · rw [allocateVersion_eq, hfree]
      simp
    · have h0 := hprev 0 (by norm_num)
      rw [allocateVersion_eq, h0, hfree]
      simp
    · have h0 := hprev 0 (by norm_num)
      have h1 := hprev 1 (by norm_num)
      rw [allocateVersion_eq, h0, h1, hfree]
      simp

/-- Witness for C4: attempts observing maxima 4, 5, 6 all taken exhaust the
retries (500, nothing created); and with the first attempt free on an
empty table the allocated version is 1. -/
theorem variant_version_allocation_witness :
    (allocateVersion (fun i => { lastVersion := some (4 + i), versionTaken := true }) =
        AllocResult.failed ∧
      variantPostAfterAlloc []
        (allocateVersion (fun i => { lastVersion := some (4 + i), versionTaken := true })) =
        (some 500, [])) ∧
    allocateVersion (fun _ => { lastVersion := none, versionTaken := false }) =
      AllocResult.allocated 1 :=
  ⟨(variant_version_allocation (fun i => { lastVersion := some (4 + i), versionTaken := true })
      []).1 (fun i _ => rfl),
    (variant_version_allocation (fun _ => { lastVersion := none, versionTaken := false })
      []).2 0 (by norm_num) rfl (fun j hj => absurd hj (Nat.not_lt_zero j))⟩

/-- Closed form of the commit operation when the pointed variant exists:
every row of the message is deactivated except the pointed one, which is
activated, and the canonical message receives the pointed content. -/
theorem setActiveVariant_eq (db : AppDB) (messageId variantId : Nat) (v : MessageVersion)
    (hfind : db.versions.find? (fun w => w.id = variantId) = some v) :
    setActiveVariant db messageId variantId =
      some { db with
        versions := db.versions.map (fun w =>
          if w.id = variantId then { v with isActive := true }
          else if w.messageId = messageId then { w with isActive := false } else w),
        messages := db.messages.map (fun m =>
          if m.id = messageId then { m with content := v.content } else m) } := by
  have hid : ∀ w : MessageVersion,
      (if w.messageId = messageId then { w with isActive := false } else w).id = w.id := by
    intro w
    by_cases h : w.messageId = messageId <;> simp [h]
  have hfind2 : (db.versions.map (fun w =>
      if w.messageId = messageId then { w with isActive := false } else w)).find?
        (fun w => w.id = variantId) =
      some (if v.messageId = messageId then { v with isActive := false } else v) := by
    rw [List.find?_map]
    have hcomp : ((fun w : MessageVersion => decide (w.id = variantId)) ∘
        (fun w => if w.messageId = messageId then { w with isActive := false } else w)) =
        (fun w : MessageVersion => decide (w.id = variantId)) := by
      funext w
      simp [Function.comp, hid w]
    rw [hcomp, hfind]
    rfl
  have hmsg : db.messages.map (fun m =>
      if m.id = messageId then
        { m with content :=
          (if v.messageId = messageId then { v with isActive := false } else v).content }
      else m) =
      db.messages.map (fun m =>
        if m.id = messageId then { m with content := v.content } else m) := by
    refine List.map_congr_left ?_
    intro m _
    by_cases hm : m.id = messageId <;>
      by_cases hvm : v.messageId = messageId <;> simp [hm, hvm]
  have hver : (db.versions.map (fun w =>
      if w.messageId = messageId then { w with isActive := false } else w)).map
        (fun w => if w.id = variantId then
          { (if v.messageId = messageId then { v with isActive := false } else v) with
            isActive := true }
          else w) =
      db.versions.map (fun w =>
        if w.id = variantId then { v with isActive := true }
        else if w.messageId = messageId then { w with isActive := false } else w) := by
    rw [List.map_map]
    refine List.map_congr_left ?_
    intro w _
    by_cases hw : w.id = variantId
    · by_cases hm : w.messageId = messageId <;>
        by_cases hvm : v.messageId = messageId <;>
          simp [Function.comp, hw, hm, hvm]
    · by_cases hm : w.messageId = messageId <;>
        simp [Function.comp, hw, hm]
  simp only [setActiveVariant, hfind2]
  rw [hmsg, hver]


/-- One assistant message (id 1) with one stored variant (id 10). -/
def commitExampleDB : AppDB :=
  { personas := [], characters := [], sessions := [],
    messages := [{ id := 1, sessionId := 1, role := Role.assistant,
                   content := "orig", createdAt := 0 }],
    versions := [{ id := 10, messageId := 1, content := "v1", version := 1,
                   isActive := false }] }

/-- C2 counterexample: committing variant 10 of message 1 succeeds, yet the
MessageVersion rows of the message are NOT deleted (the claimed post-state
of zero rows is false; the row survives, now active). -/
theorem commit_deletes_no_variants_counterexample :
    (setActiveVariant commitExampleDB 1 10).isSome = true ∧
    ¬ ((setActiveVariant commitExampleDB 1 10).map
        (fun db2 => db2.versions.filter (fun w => w.messageId = 1))) = some [] := by
  decide

/-- C2 (amended): commit copies the pointed variant's content into the
canonical ChatMessage and marks that variant the sole active row of the
message; it deletes no MessageVersion rows (cleanup is the separate DELETE
handler). -/
theorem commit_copies_content_keeps_variants (db : AppDB) (messageId variantId : Nat)
    (v : MessageVersion)
    (hfind : db.versions.find? (fun w => w.id = variantId) = some v) :
    ∃ db2, setActiveVariant db messageId variantId = some db2 ∧
      db2.messages = db.messages.map (fun m =>
        if m.id = messageId then { m with content := v.content } else m) ∧
      db2.versions.length = db.versions.length ∧
      (∀ w ∈ db2.versions, w.messageId = messageId →
        (w.isActive = true ↔ w.id = variantId)) := by
  refine ⟨_, setActiveVariant_eq db messageId variantId v hfind, rfl, by simp, ?_⟩
  have hvid : v.id = variantId := by
    have h := List.find?_some hfind
    simpa using h
  intro w hw hwm
  simp only [List.mem_map] at hw
  obtain ⟨u, hu, rfl⟩ := hw
  by_cases huid : u.id = variantId
  · simp [huid, hvid]
  · by_cases hum : u.messageId = messageId
    · simp [huid, hum]
    · simp only [if_neg huid, if_neg hum] at hwm ⊢
      exact absurd hwm hum

/-- Witness for the amended C2 on the concrete one-variant database. -/
theorem commit_copies_content_keeps_variants_witness :
    ∃ db2, setActiveVariant commitExampleDB 1 10 = some db2 ∧
      db2.messages = commitExampleDB.messages.map (fun m =>
        if m.id = 1 then { m with content := "v1" } else m) ∧
      db2.versions.length = commitExampleDB.versions.length ∧
      (∀ w ∈ db2.versions, w.messageId = 1 → (w.isActive = true ↔ w.id = 10)) :=
  commit_copies_content_keeps_variants commitExampleDB 1 10
    { id := 10, messageId := 1, content := "v1", version := 1, isActive := false }
    (by decide)

/-- C5: a POST /api/characters request whose (name, profileName) pair (as
stored: a falsy profileName becomes NULL) duplicates an existing
Character's pair answers 400 and leaves the characters table unchanged. -/
theorem characters_post_duplicate_rejected (db : List Character)
    (body : CharacterCreateBody) (newId : Nat) (name : String)
    (hname : body.name = some name) (hne : ¬ name = "")
    (hdup : characterCreateConflicts db name (storedProfileName body.profileName) = true) :
    charactersPost db body newId = (400, db) := by
  simp [charactersPost, hname, hne, hdup]

/-- Witness for C5: creating ("Ann", NULL) again over a table already
holding ("Ann", NULL) answers 400 and creates no row. -/
theorem characters_post_duplicate_rejected_witness :
    charactersPost
      [{ id := 1, name := "Ann", profileName := none, firstMessage := "hi" }]
      { name := some "Ann", profileName := none, firstMessage := some "yo" } 2 =
      (400, [{ id := 1, name := "Ann", profileName := none, firstMessage := "hi" }]) :=
  characters_post_duplicate_rejected
    [{ id := 1, name := "Ann", profileName := none, firstMessage := "hi" }]
    { name := some "Ann", profileName := none, firstMessage := some "yo" } 2 "Ann"
    rfl (by decide) (by decide)

/-- C6: DELETE /api/personas/[id] on an existing persona answers 204 and
removes the persona, every ChatSession referencing it, and every
ChatMessage of those sessions; what remains references no deleted
session. -/
theorem persona_delete_cascades (db : AppDB) (personaId : Nat)
    (h : db.personas.any (fun p => p.id = personaId) = true) :
    (personaDelete db personaId).1 = 204 ∧
    (personaDelete db personaId).2.personas =
      db.personas.filter (fun p => ¬ p.id = personaId) ∧
    (personaDelete db personaId).2.sessions =
      db.sessions.filter (fun s => ¬ s.personaId = personaId) ∧
    (personaDelete db personaId).2.messages =
      db.messages.filter (fun m => ¬ db.sessions.any
        (fun s => s.id = m.sessionId ∧ s.personaId = personaId)) ∧
    (∀ s ∈ (personaDelete db personaId).2.sessions, ¬ s.personaId = personaId) ∧
    (∀ m ∈ (personaDelete db personaId).2.messages, ∀ s ∈ db.sessions,
      s.id = m.sessionId → ¬ s.personaId = personaId) := by
  refine ⟨?_, ?_, ?_, ?_, ?_, ?_⟩
  · simp [personaDelete, h]
  · simp [personaDelete, h]
  · simp [personaDelete, h]
  · simp [personaDelete, h]
  · intro s hs
    simp only [personaDelete, h, if_pos, List.mem_filter] at hs
    simpa using hs.2
  · intro m hm s hs hsid hpid
    simp only [personaDelete, h, if_pos, List.mem_filter] at hm
    have h2 := hm.2
    simp only [decide_eq_true_eq] at h2
    exact h2 (List.any_eq_true.mpr ⟨s, hs, by simp [hsid, hpid]⟩)

/-- Two personas; persona 5 owns session 1 with one message, persona 6
owns session 2 with one message. -/
def personaDeleteExampleDB : AppDB :=
  { personas := [{ id := 5, name := "P5", profileName := none, profile := "x" },
                 { id := 6, name := "P6", profileName := none, profile := "y" }],
    characters := [],
    sessions := [{ id := 1, personaId := 5, characterId := 9 },
                 { id := 2, personaId := 6, characterId := 9 }],
    messages := [{ id := 1, sessionId := 1, role := Role.user, content := "a", createdAt := 0 },
                 { id := 2, sessionId := 2, role := Role.user, content := "b", createdAt := 1 }],
    versions := [] }

/-- Witness for C6: deleting persona 5 removes its session 1 and that
session's message, keeps persona 6 with session 2 and its message, and
answers 204. -/
theorem persona_delete_cascades_witness :
    (personaDelete personaDeleteExampleDB 5).1 = 204 ∧
    (personaDelete personaDeleteExampleDB 5).2.personas =
      personaDeleteExampleDB.personas.filter (fun p => ¬ p.id = 5) ∧
    (personaDelete personaDeleteExampleDB 5).2.sessions =
      personaDeleteExampleDB.sessions.filter (fun s => ¬ s.personaId = 5) ∧
    (personaDelete personaDeleteExampleDB 5).2.messages =
      personaDeleteExampleDB.messages.filter (fun m =>
        ¬ personaDeleteExampleDB.sessions.any
          (fun s => s.id = m.sessionId ∧ s.personaId = 5)) ∧
    (∀ s ∈ (personaDelete personaDeleteExampleDB 5).2.sessions, ¬ s.personaId = 5) ∧
    (∀ m ∈ (personaDelete personaDeleteExampleDB 5).2.messages,
      ∀ s ∈ personaDeleteExampleDB.sessions, s.id = m.sessionId → ¬ s.personaId = 5) :=
  persona_delete_cascades personaDeleteExampleDB 5 (by decide)

/-- C7: commit (PUT selecting the active variant) followed immediately by
cleanup (DELETE) leaves zero MessageVersion rows for the message; the
DELETE response is a 200 whose body reports exactly the number of rows
removed. -/
theorem commit_then_cleanup_zero_rows (db db2 : AppDB) (messageId variantId : Nat)
    (hcommit : setActiveVariant db messageId variantId = some db2) :
    (deleteVariants db2 messageId).1 = 200 ∧
    (deleteVariants db2 messageId).2.1 =
      (db2.versions.filter (fun v => v.messageId = messageId)).length ∧
    (deleteVariants db2 messageId).2.2.versions.filter
      (fun v => v.messageId = messageId) = [] := by
  refine ⟨rfl, rfl, ?_⟩
  simp only [deleteVariants]
  refine List.filter_eq_nil_iff.mpr ?_
  intro v hv
  have hv2 := (List.mem_filter.mp hv).2
  simp only [decide_eq_true_eq] at hv2 ⊢
  exact hv2

/-- One assistant message (id 3) with one stored variant (id 20), for the
C7 witness. -/
def cleanupExampleDB : AppDB :=
  { personas := [], characters := [], sessions := [],
    messages := [{ id := 3, sessionId := 1, role := Role.assistant,
                   content := "first", createdAt := 0 }],
    versions := [{ id := 20, messageId := 3, content := "alt", version := 1,
                   isActive := false }] }

/-- The state of `cleanupExampleDB` right after committing variant 20. -/
def cleanupExampleResult : AppDB :=
  { personas := [], characters := [], sessions := [],
    messages := [{ id := 3, sessionId := 1, role := Role.assistant,
                   content := "alt", createdAt := 0 }],
    versions := [{ id := 20, messageId := 3, content := "alt", version := 1,
                   isActive := true }] }

/-- Witness for C7 on the concrete one-variant database: after commit, the
DELETE answers 200, reports the remaining row count, and leaves zero
rows for message 3. -/
theorem commit_then_cleanup_zero_rows_witness :
    (deleteVariants cleanupExampleResult 3).1 = 200 ∧
    (deleteVariants cleanupExampleResult 3).2.1 =
      (cleanupExampleResult.versions.filter (fun v => v.messageId = 3)).length ∧
    (deleteVariants cleanupExampleResult 3).2.2.versions.filter
      (fun v => v.messageId = 3) = [] :=
  commit_then_cleanup_zero_rows cleanupExampleDB cleanupExampleResult 3 20 (by decide)

/-- C8 counterexample: the non-streaming variant-create handler translates
the uniqueness violation P2002 into HTTP 409, not 400 (variants.ts line
243), refuting "every create/update operation answers 400 on P2002". -/
theorem p2002_not_always_400_counterexample :
    p2002Status CreateOrUpdateOp.variantCreate = 409 ∧
    ¬ p2002Status CreateOrUpdateOp.variantCreate = 400 := by decide

/-- C8 (amended): every create/update handler that catches the uniqueness
violation P2002 answers 400 with a descriptive error body, except the
non-streaming variant create, which answers 409 (and the mid-stream
variant save, which reports the conflict inside the already-open event
stream without a status change). -/
theorem p2002_status_400_except_variant_create (op : CreateOrUpdateOp)
    (h : ¬ op = CreateOrUpdateOp.variantCreate) : p2002Status op = 400 := by
  cases op <;> first | rfl | exact absurd rfl h

/-- Witness for the amended C8 at the character-creation endpoint. -/
theorem p2002_status_400_except_variant_create_witness :
    p2002Status CreateOrUpdateOp.charactersPost = 400 :=
  p2002_status_400_except_variant_create CreateOrUpdateOp.charactersPost (by decide)

/-- C10: creating a session with valid (truthy, existing) personaId and
characterId answers 201 and seeds the new session with exactly one
assistant message whose content is the character's firstMessage with
`\x7b\x7buser\x7d\x7d` globally replaced by the persona's name and
`\x7b\x7bchar\x7d\x7d` globally replaced by the character's name. -/
theorem sessions_post_seeds_first_message (db : AppDB)
    (personaId characterId newSessionId newMessageId now : Nat)
    (p : Persona) (c : Character)
    (hpid : ¬ personaId = 0) (hcid : ¬ characterId = 0)
    (hp : db.personas.find? (fun q => q.id = personaId) = some p)
    (hc : db.characters.find? (fun d => d.id = characterId) = some c)
    (hfresh : ∀ m ∈ db.messages, ¬ m.sessionId = newSessionId) :
    (sessionsPost db personaId characterId newSessionId newMessageId now).1 = 201 ∧
    (sessionsPost db personaId characterId newSessionId newMessageId now).2.messages.filter
        (fun m => m.sessionId = newSessionId) =
      [{ id := newMessageId, sessionId := newSessionId, role := Role.assistant,
         content := seedFirstMessage c.firstMessage p.name c.name, createdAt := now }] := by
  simp only [sessionsPost, hp, hc]
  rw [if_neg (by simp [hpid, hcid])]
  refine ⟨rfl, ?_⟩
  simp only [List.filter_append]
  rw [List.filter_eq_nil_iff.mpr (by intro m hm; simpa using hfresh m hm)]
  simp

/-- A persona (id 5, "Alice") and a character (id 9, "Bob") whose first
message uses both placeholders, for the C10 witness. -/
def sessionsPostExampleDB : AppDB :=
  { personas := [{ id := 5, name := "Alice", profileName := none, profile := "p" }],
    characters := [{ id := 9, name := "Bob", profileName := none,
                     firstMessage := "Hi \x7b\x7buser\x7d\x7d, I am \x7b\x7bchar\x7d\x7d!" }],
    sessions := [], messages := [], versions := [] }

/-- Witness for C10: the seeded message of the new session 1 is exactly
one assistant row reading "Hi Alice, I am Bob!". -/
theorem sessions_post_seeds_first_message_witness :
    (sessionsPost sessionsPostExampleDB 5 9 1 2 7).1 = 201 ∧
    (sessionsPost sessionsPostExampleDB 5 9 1 2 7).2.messages.filter
        (fun m => m.sessionId = 1) =
      [{ id := 2, sessionId := 1, role := Role.assistant,
         content := "Hi Alice, I am Bob!", createdAt := 7 }] :=
  sessions_post_seeds_first_message sessionsPostExampleDB 5 9 1 2 7
    { id := 5, name := "Alice", profileName := none, profile := "p" }
    { id := 9, name := "Bob", profileName := none,
      firstMessage := "Hi \x7b\x7buser\x7d\x7d, I am \x7b\x7bchar\x7d\x7d!" }
    (by decide) (by decide) (by decide) (by decide) (by intro m hm; cases hm)

/-- Once the disconnect flag is set, the chat-send relay loop processes no
further events. -/
theorem runChatSendStream_of_disconnected (sessionId newId now : Nat) (st : ChatSendState)
    (events : List StreamEvent) (h : st.clientDisconnected = true) :
    runChatSendStream sessionId newId now st events = st := by
  cases events with
  | nil => rfl
  | cons e rest => simp [runChatSendStream, h]

/-- Relaying a run of pure content deltas only appends their concatenation
to the accumulator. -/
theorem runChatSendStream_deltas (sessionId newId now : Nat) (pre : List StreamEvent)
    (hpre : allDeltas pre) (st : ChatSendState) (evs : List StreamEvent)
    (hcd : st.clientDisconnected = false) :
    runChatSendStream sessionId newId now st (pre ++ evs) =
      runChatSendStream sessionId newId now
        { st with assistantText := st.assistantText ++ deltaText pre } evs := by
  induction pre generalizing st with
  | nil => simp [deltaText]
  | cons e rest ih =>
    cases e with
    | delta s =>
      simp only [List.cons_append]
      rw [show runChatSendStream sessionId newId now st
            (StreamEvent.delta s :: (rest ++ evs)) =
          runChatSendStream sessionId newId now
            { st with assistantText := st.assistantText ++ s } (rest ++ evs) from by
        simp [runChatSendStream, hcd]]
      rw [ih hpre { st with assistantText := st.assistantText ++ s } hcd]
      simp [deltaText, String.append_assoc]
    | done => exact hpre.elim
    | disconnect => exact hpre.elim

/-- C9 (amended): in the chat-send handler, a client disconnect before the
upstream stream completes persists the accumulated text exactly once,
provided it contains a non-whitespace character (the handler tests
JavaScript truthiness of `assistantText.trim()`, not mere non-emptiness):
the partial text goes through `saveAssistantMessage` a single time
(`messageSaved` ends true), appended to the session's last message when
that message is an assistant message and as a new assistant row
otherwise. -/
theorem chat_send_disconnect_partial_saved (messages : List ChatMessage)
    (sessionId newId now : Nat) (pre post : List StreamEvent)
    (hpre : allDeltas pre)
    (htext : trimNonempty (deltaText pre) = true) :
    (chatSendStream messages sessionId newId now
        (pre ++ StreamEvent.disconnect :: post)).messages =
      saveAssistantMessage messages sessionId (deltaText pre) newId now ∧
    (chatSendStream messages sessionId newId now
        (pre ++ StreamEvent.disconnect :: post)).messageSaved = true ∧
    (∀ last ∈ lastSessionMessage messages sessionId, last.role = Role.assistant →
      (chatSendStream messages sessionId newId now
          (pre ++ StreamEvent.disconnect :: post)).messages =
        messages.map (fun m => if m.id = last.id then
          { m with content := m.content ++ "\n\n" ++ deltaText pre } else m)) ∧
    ((∀ last ∈ lastSessionMessage messages sessionId, ¬ last.role = Role.assistant) →
      (chatSendStream messages sessionId newId now
          (pre ++ StreamEvent.disconnect :: post)).messages =
        messages ++ [{ id := newId, sessionId := sessionId, role := Role.assistant,
                       content := deltaText pre, createdAt := now }]) := by
  have hfinal : chatSendStream messages sessionId newId now
      (pre ++ StreamEvent.disconnect :: post) =
      { messages := saveAssistantMessage messages sessionId (deltaText pre) newId now,
        assistantText := deltaText pre, streamCompleted := false,
        messageSaved := true, clientDisconnected := true } := by
    unfold chatSendStream
    rw [runChatSendStream_deltas sessionId newId now pre hpre _
      (StreamEvent.disconnect :: post) rfl]
    have hempty : ("" : String) ++ deltaText pre = deltaText pre := by simp
    rw [show runChatSendStream sessionId newId now
          { messages := messages, assistantText := "" ++ deltaText pre,
            streamCompleted := false, messageSaved := false, clientDisconnected := false }
          (StreamEvent.disconnect :: post) =
        runChatSendStream sessionId newId now
          (savePartialMessage sessionId newId now
            { messages := messages, assistantText := "" ++ deltaText pre,
              streamCompleted := false, messageSaved := false, clientDisconnected := true })
          post from by
      simp only [runChatSendStream]
      norm_num]
    rw [show savePartialMessage sessionId newId now
          { messages := messages, assistantText := "" ++ deltaText pre,
            streamCompleted := false, messageSaved := false, clientDisconnected := true } =
        { messages := saveAssistantMessage messages sessionId (deltaText pre) newId now,
          assistantText := deltaText pre, streamCompleted := false,
          messageSaved := true, clientDisconnected := true } from by
      simp [savePartialMessage, hempty, htext]]
    rw [runChatSendStream_of_disconnected sessionId newId now _ post rfl]
    simp [chatSendFinish]
  refine ⟨by rw [hfinal], by rw [hfinal], ?_, ?_⟩
  · intro last hlast hrole
    rw [hfinal]
    have hls : lastSessionMessage messages sessionId = some last := hlast
    simp [saveAssistantMessage, hls, hrole]
  · intro hnone
    rw [hfinal]
    cases hls : lastSessionMessage messages sessionId with
    | none => simp [saveAssistantMessage, hls]
    | some last =>
      have hrole := hnone last (by rw [hls]; rfl)
      simp [saveAssistantMessage, hls, hrole]

/-- C9 counterexample: a whitespace-only accumulated text (" ") is
non-empty, yet a disconnect persists nothing: `assistantText.trim()` is
falsy, so `savePartialMessage` declines the save and the table stays
empty. -/
theorem chat_send_whitespace_not_saved_counterexample :
    ¬ deltaText [StreamEvent.delta " "] = "" ∧
    (chatSendStream [] 1 100 5
        [StreamEvent.delta " ", StreamEvent.disconnect]).messages = [] ∧
    (chatSendStream [] 1 100 5
        [StreamEvent.delta " ", StreamEvent.disconnect]).messageSaved = false := by
  decide

/-- Witness for the amended C9: "Hi" accumulated, then a disconnect; the
partial text is saved once, as a new assistant row of the empty session. -/
theorem chat_send_disconnect_partial_saved_witness :
    (chatSendStream [] 1 100 5
        [StreamEvent.delta "Hi", StreamEvent.disconnect]).messages =
      saveAssistantMessage [] 1 "Hi" 100 5 ∧
    (chatSendStream [] 1 100 5
        [StreamEvent.delta "Hi", StreamEvent.disconnect]).messageSaved = true ∧
    (∀ last ∈ lastSessionMessage [] 1, last.role = Role.assistant →
      (chatSendStream [] 1 100 5
          [StreamEvent.delta "Hi", StreamEvent.disconnect]).messages =
        List.map (fun m => if m.id = last.id then
          { m with content := m.content ++ "\n\n" ++ "Hi" } else m) []) ∧
    ((∀ last ∈ lastSessionMessage [] 1, ¬ last.role = Role.assistant) →
      (chatSendStream [] 1 100 5
          [StreamEvent.delta "Hi", StreamEvent.disconnect]).messages =
        [] ++ [{ id := 100, sessionId := 1, role := Role.assistant,
                 content := "Hi", createdAt := 5 }]) :=
  chat_send_disconnect_partial_saved [] 1 100 5 [StreamEvent.delta "Hi"] []
    (by decide) (by decide)
